import Mathlib

/-!
Shallow embedding of the `neomind-apex-ingestion` integration layer
(`src/app/integrations/{base,google,microsoft}.py`) together with theorems
checking the natural-language specification against the code.

Conventions of the embedding:
* Python `str | None` values become `Option String`; Python truthiness of an
  optional string (`if sync_token:`) is `optTruthy`.
* The upstream HTTP services are modelled as a finite script of responses that
  the adapter consumes in order; each request actually issued by the adapter is
  recorded in a trace so that claims about request parameters can be stated.
  Running past the end of the script is reported as the artificial outcome
  `outOfScript` (no claim quantifies over such runs).
* A raised `IntegrationException` becomes an explicit error result carrying the
  same constructor arguments as the Python class.
-/

namespace ApexIngestion

/-- Python truthiness of an optional string: `None` and `""` are falsy. -/
def optTruthy : Option String → Bool
  | none => false
  | some s => s != ""

/-- Embeds `IntegrationException` from `src/app/integrations/base.py`:
`__init__(self, message, provider, operation=None)` stores `provider` and
`operation` as instance attributes and passes `message` to `Exception`. -/
structure IntegrationException where
  message : String
  provider : String
  operation : Option String
deriving DecidableEq, Repr

/-- The observability tags attached to an `IntegrationException`: the instance
attributes set in `__init__` besides the exception message.  The source class
stores exactly `provider` and `operation`. -/
def IntegrationException.tags (e : IntegrationException) :
    List (String × Option String) :=
  [("provider", some e.provider), ("operation", e.operation)]

/-- A single identifier of a normalized contact, `{"type": ..., "value": ...}`.
Google appends `email.get("value")` unchecked, so the value can be `None`. -/
structure Identifier where
  type : String
  value : Option String
deriving DecidableEq, Repr

/-- A normalized contact dict as built by `_parse_google_contact` /
`_parse_microsoft_contact`: `id`, optional `name`, and `identifiers`. -/
structure Contact where
  id : Option String
  name : Option String
  identifiers : List Identifier
deriving DecidableEq, Repr

/-! ### Google Workspace: contacts (`GoogleWorkspaceIntegration.get_contacts`) -/

/-- One entry of `names` in a People API connection. -/
structure GoogleName where
  displayName : Option String
deriving DecidableEq, Repr

/-- One entry of `emailAddresses` in a People API connection. -/
structure GoogleEmail where
  value : Option String
deriving DecidableEq, Repr

/-- One entry of `phoneNumbers` in a People API connection. -/
structure GooglePhone where
  value : Option String
deriving DecidableEq, Repr

/-- A People API `connection` object, restricted to the keys the code reads. -/
structure GoogleConnection where
  resourceName : Option String
  names : List GoogleName
  emailAddresses : List GoogleEmail
  phoneNumbers : List GooglePhone
deriving DecidableEq, Repr

/-- Embeds `GoogleWorkspaceIntegration._parse_google_contact`. -/
def parseGoogleContact (c : GoogleConnection) : Option Contact :=
  let ids :=
    c.emailAddresses.map (fun e => Identifier.mk "email" e.value) ++
      c.phoneNumbers.map (fun p => Identifier.mk "phone" p.value)
  let name : Option String :=
    match c.names with
    | [] => none
    | n :: _ => n.displayName
  if ids.isEmpty then none else some ⟨c.resourceName, name, ids⟩

/-- The parameter dict built at the top of the `while True` loop of
`get_contacts`.  `resourceName`, `pageSize` and `personFields` are constants in
the source; the mutually exclusive `syncToken` / `pageToken` /
`requestSyncToken` entries follow the `if/elif/else` chain. -/
structure GoogleParams where
  resourceName : String := "people/me"
  pageSize : Nat := 100
  personFields : String := "names,emailAddresses,phoneNumbers,metadata"
  syncToken : Option String := none
  pageToken : Option String := none
  requestSyncToken : Bool := false
deriving DecidableEq, Repr

/-- Builds the request parameters from the current `sync_token` and
`next_page_token`, following lines 69-80 of `google.py`. -/
def gMkParams (syncToken pageToken : Option String) : GoogleParams :=
  if optTruthy syncToken then { syncToken := syncToken }
  else if optTruthy pageToken then { pageToken := pageToken }
  else { requestSyncToken := true }

/-- One scripted reply of the People API `connections().list` call: either a
raised `HttpError` with a status code (`msg` models its `str(e)` rendering) or
a successful response page with the keys the code reads. -/
inductive GoogleResp where
  | httpError (status : Nat) (msg : String)
  | page (connections : List GoogleConnection) (nextPageToken : Option String)
      (nextSyncToken : Option String)
deriving DecidableEq, Repr

/-- Result of a `get_contacts` call: the `(contacts, next_sync_token)` pair, a
raised `IntegrationException`, or the model artifact `outOfScript`. -/
inductive GResult where
  | ok (contacts : List Contact) (nextSyncToken : Option String)
  | err (e : IntegrationException)
  | outOfScript
deriving DecidableEq, Repr

/-- Models the outer `except Exception` handler of `get_contacts` re-wrapping
an `IntegrationException` raised by the recursive full-sync call: `str(e)` of
an `IntegrationException` is its message. -/
def gWrapErr : GResult → GResult
  | .err e =>
      .err ⟨"Failed to fetch contacts: " ++ e.message, "google_workspace",
        some "get_contacts"⟩
  | r => r

/-- Embeds the `while True` loop of `GoogleWorkspaceIntegration.get_contacts`
(lines 67-111), together with the surrounding `try/except` translation.  The
410 branch with a truthy `sync_token` models
`return await self.get_contacts(sync_token=None)`: a fresh call (empty
accumulator, no page token) on the remaining script whose errors are wrapped a
second time by the outer handler of the current call. -/
def gAux : Option String → Option String → List Contact → List GoogleResp →
    List GoogleParams → GResult × List GoogleParams
  | syncToken, pageToken, acc, script, tr =>
    let params := gMkParams syncToken pageToken
    match script with
    | [] => (.outOfScript, tr ++ [params])
    | resp :: rest =>
      match resp with
      | .httpError status msg =>
        if status == 410 && optTruthy syncToken then
          let r := gAux none none [] rest (tr ++ [params])
          (gWrapErr r.1, r.2)
        else
          (.err ⟨"Failed to fetch contacts: " ++ msg, "google_workspace",
            some "get_contacts"⟩, tr ++ [params])
      | .page connections nextPageToken nextSyncToken =>
        let acc2 := acc ++ connections.filterMap parseGoogleContact
        if optTruthy nextPageToken then
          gAux syncToken nextPageToken acc2 rest (tr ++ [params])
        else
          (.ok acc2 nextSyncToken, tr ++ [params])

/-- Embeds `GoogleWorkspaceIntegration.get_contacts` on a scripted provider: returns
the outcome and the trace of issued request parameter dicts. -/
def googleGetContacts (syncToken : Option String) (script : List GoogleResp) :
    GResult × List GoogleParams :=
  gAux syncToken none [] script []

/-! ### Microsoft 365: contacts (`Microsoft365Integration.get_contacts`) -/

/-- Constant `GRAPH_BASE_URL` from `microsoft.py`. -/
def GRAPH_BASE_URL : String := "https://graph.microsoft.com/v1.0"

/-- The initial URL of an incremental (delta) contact sync. -/
def msDeltaUrl (tok : String) : String :=
  GRAPH_BASE_URL ++ "/me/contacts/delta?$deltatoken=" ++ tok

/-- The initial URL of a full contact sync. -/
def msFullUrl : String := GRAPH_BASE_URL ++ "/me/contacts?$top=100"

/-- An upstream failure of an `httpx` request: `raise_for_status()` raising
`HTTPStatusError` with a status code (`msg` models `str(e)`), or any other
exception with its `str(e)` text. -/
inductive MsFailure where
  | httpStatus (code : Nat) (msg : String)
  | otherExc (msg : String)
deriving DecidableEq, Repr

/-- The `str(e)` rendering of an upstream failure, as seen by a generic
`except Exception as e` handler. -/
def msFailureStr : MsFailure → String
  | .httpStatus _ msg => msg
  | .otherExc msg => msg

/-- One entry of `emailAddresses` of a Graph contact. -/
structure MsEmail where
  address : Option String
deriving DecidableEq, Repr

/-- A Graph `contact` object, restricted to the keys the code reads.
`businessPhones`/`homePhones` are JSON lists when present, `mobilePhone` is a
string; `none` models an absent key. -/
structure MsContact where
  id : Option String
  displayName : Option String
  emailAddresses : List MsEmail
  businessPhones : Option (List String)
  homePhones : Option (List String)
  mobilePhone : Option String
deriving DecidableEq, Repr

/-- The phone values collected by the `for phone_type in [...]` loop of
`_parse_microsoft_contact`: list-valued fields are iterated (keeping truthy
entries), and the string-valued `mobilePhone` is appended when truthy. -/
def msPhonesOf (c : MsContact) : List String :=
  let fromList : Option (List String) → List String
    | some l => l.filter (fun s => s != "")
    | none => []
  fromList c.businessPhones ++ fromList c.homePhones ++
    (match c.mobilePhone with
     | some s => if s != "" then [s] else []
     | none => [])

/-- Embeds `Microsoft365Integration._parse_microsoft_contact`. -/
def parseMicrosoftContact (c : MsContact) : Option Contact :=
  let emailIds := c.emailAddresses.filterMap (fun e =>
    match e.address with
    | some a => if a != "" then some (Identifier.mk "email" (some a)) else none
    | none => none)
  let ids := emailIds ++ (msPhonesOf c).map (fun p => Identifier.mk "phone" (some p))
  if ids.isEmpty then none else some ⟨c.id, c.displayName, ids⟩

/-- One scripted reply of a `client.get(url)` call in the contacts loop:
either an upstream failure or a JSON page with the keys the code reads. -/
inductive MsResp where
  | fail (f : MsFailure)
  | page (value : List MsContact) (nextLink : Option String)
      (deltaLink : Option String)
deriving DecidableEq, Repr

/-- Outcome of the contacts `while url:` loop before delta-token extraction. -/
inductive MsLoopResult where
  | done (contacts : List Contact) (deltaLink : Option String)
  | err (e : IntegrationException)
  | outOfScript
deriving DecidableEq, Repr

/-- Embeds the `while url:` loop of `Microsoft365Integration.get_contacts`
(lines 55-71) together with the two `except` handlers: an `HTTPStatusError`
from `raise_for_status` is reported as
`"Failed to fetch contacts: HTTP {code}"`, any other exception as
`"Failed to fetch contacts: {str(e)}"`.  The trace records each URL requested. -/
def msAux : String → List Contact → List MsResp → List String →
    MsLoopResult × List String
  | url, acc, script, tr =>
    match script with
    | [] => (.outOfScript, tr ++ [url])
    | resp :: rest =>
      match resp with
      | .fail (.httpStatus code _) =>
        (.err ⟨"Failed to fetch contacts: HTTP " ++ toString code,
          "microsoft_365", some "get_contacts"⟩, tr ++ [url])
      | .fail (.otherExc msg) =>
        (.err ⟨"Failed to fetch contacts: " ++ msg,
          "microsoft_365", some "get_contacts"⟩, tr ++ [url])
      | .page value nextLink deltaLink =>
        let acc2 := acc ++ value.filterMap parseMicrosoftContact
        match nextLink with
        | some nl =>
          if nl != "" then msAux nl acc2 rest (tr ++ [url])
          else (.done acc2 deltaLink, tr ++ [url])
        | none => (.done acc2 deltaLink, tr ++ [url])

/-- Splits a character list on a single separator character, with Python
`str.split(sep)` semantics (an empty input yields one empty field). -/
def splitOnCharAux (c : Char) : List Char → List Char → List (List Char)
  | [], cur => [cur.reverse]
  | x :: xs, cur =>
    if x == c then cur.reverse :: splitOnCharAux c xs []
    else splitOnCharAux c xs (x :: cur)

/-- Python `str.split(sep)` for a one-character separator. -/
def splitOnChar (c : Char) (l : List Char) : List (List Char) :=
  splitOnCharAux c l []

/-- Splits at the first occurrence of `c`, Python `str.split(sep, 1)`:
`none` when `c` does not occur. -/
def splitFirst (c : Char) : List Char → Option (List Char × List Char)
  | [] => none
  | x :: xs =>
    if x == c then some ([], xs)
    else (splitFirst c xs).map (fun p => (x :: p.1, p.2))

/-- The query component of a URL as `urllib.parse.urlparse` extracts it: the
fragment (everything after the first `#`) is removed first, then the query is
everything after the first `?` of the remainder. -/
def urlQuery (s : String) : List Char :=
  let noFrag := (splitOnChar '#' s.toList).headD []
  match splitFirst '?' noFrag with
  | none => []
  | some p => p.2

/-- Embeds `urllib.parse.parse_qs(query).get(key, [None])[0]`: split the query on
`&`, split each pair on the first `=`, drop pairs without `=` or with an empty
value, and return the first value recorded for `key`.  (Percent-decoding of
names and values is not modelled; no claim depends on it.) -/
def parseQsGet (query : List Char) (key : String) : Option String :=
  let vals := (splitOnChar '&' query).filterMap (fun pair =>
    match splitFirst '=' pair with
    | none => none
    | some p =>
      if p.1 == key.toList && p.2 != [] then some (String.mk p.2) else none)
  vals.head?

/-- Lines 73-81 of `microsoft.py`: extract the `$deltatoken` parameter from a
truthy delta link. -/
def msExtractToken (deltaLink : Option String) : Option String :=
  match deltaLink with
  | none => none
  | some dl => if dl != "" then parseQsGet (urlQuery dl) "$deltatoken" else none

/-- Result of a Microsoft `get_contacts` call. -/
inductive MsResult where
  | ok (contacts : List Contact) (nextSyncToken : Option String)
  | err (e : IntegrationException)
  | outOfScript
deriving DecidableEq, Repr

/-- Embeds `Microsoft365Integration.get_contacts` on a scripted provider: returns the
outcome and the trace of requested URLs. -/
def msGetContacts (syncToken : Option String) (script : List MsResp) :
    MsResult × List String :=
  let url := if optTruthy syncToken then msDeltaUrl (syncToken.getD "")
             else msFullUrl
  match msAux url [] script [] with
  | (.done cs dl, tr) => (.ok cs (msExtractToken dl), tr)
  | (.err e, tr) => (.err e, tr)
  | (.outOfScript, tr) => (.outOfScript, tr)

/-! ### Google Workspace: email (`_parse_gmail_message`, `get_email_content`) -/

/-- One entry of `payload["headers"]`. -/
structure GmailHeader where
  name : String
  value : String
deriving DecidableEq, Repr

/-- A Gmail message payload part: `mimeType`, optional `filename`, optional
`body.data`, and the optional nested `parts` list (`none` models an absent
`"parts"` key). -/
inductive GmailPayload where
  | mk (headers : List GmailHeader) (mimeType : String)
      (filename : Option String) (bodyData : Option String)
      (parts : Option (List GmailPayload))
deriving Repr

/-- The `headers` field of a payload. -/
def GmailPayload.headers : GmailPayload → List GmailHeader
  | .mk h _ _ _ _ => h

/-- The `filename` field of a payload part. -/
def GmailPayload.filename : GmailPayload → Option String
  | .mk _ _ f _ _ => f

/-- The nested `parts` field of a payload part. -/
def GmailPayload.parts : GmailPayload → Option (List GmailPayload)
  | .mk _ _ _ _ p => p

/-- A Gmail message as `users().messages().get(format="full")` returns it,
restricted to the keys `_parse_gmail_message` reads. -/
structure GmailMessage where
  id : String
  threadId : Option String
  payload : GmailPayload
  labelIds : List String
deriving Repr

/-- Embeds `{h["name"]: h["value"] for h in headers}.get(k)`: a later header with the
same name overwrites an earlier one. -/
def headerGet (hs : List GmailHeader) (k : String) : Option String :=
  hs.foldl (fun acc h => if h.name == k then some h.value else acc) none

/-- Python `str.strip()`: remove leading and trailing whitespace.  (Python
strips a slightly larger Unicode whitespace set; the difference is irrelevant
to every claim.) -/
def pyStrip (s : String) : String :=
  String.mk (((s.toList.dropWhile Char.isWhitespace).reverse.dropWhile
    Char.isWhitespace).reverse)

/-- Python truthiness of `part.get("filename") and part["filename"].strip()`:
the filename is present, non-empty, and non-empty after stripping whitespace. -/
def filenameTruthy : Option String → Bool
  | none => false
  | some f => f != "" && pyStrip f != ""

/-- Lines 187-192 of `google.py`: `has_attachments` is set by scanning the
top-level `parts` list of the payload for a part with a truthy stripped
filename.  Only the immediate parts are inspected. -/
def gmailHasAttachments (payload : GmailPayload) : Bool :=
  match payload.parts with
  | none => false
  | some parts => parts.any (fun part => filenameTruthy part.filename)

/-- The dict returned by `_parse_gmail_message`.  The `body` entry (computed
by `_extract_message_body`, base64url decoding of part data) is not modelled:
no claim mentions the message body. -/
structure GmailEmailOut where
  id : String
  threadId : Option String
  fromAddr : Option String
  toAddr : Option String
  subject : Option String
  date : Option String
  labels : List String
  hasAttachments : Bool
deriving DecidableEq, Repr

/-- Embeds `GoogleWorkspaceIntegration._parse_gmail_message` (minus the
`body` entry, see `GmailEmailOut`). -/
def parseGmailMessage (m : GmailMessage) : GmailEmailOut :=
  let hd := m.payload.headers
  { id := m.id
    threadId := m.threadId
    fromAddr := headerGet hd "From"
    toAddr := headerGet hd "To"
    subject := headerGet hd "Subject"
    date := headerGet hd "Date"
    labels := m.labelIds
    hasAttachments := gmailHasAttachments m.payload }

/-- Embeds `GoogleWorkspaceIntegration.get_email_content`: a fetch failure
(`str(e)` given as the error string) is translated through the
`except Exception` handler; a fetched message is parsed. -/
def googleGetEmailContent (fetch : Except String GmailMessage) :
    Except IntegrationException GmailEmailOut :=
  match fetch with
  | .ok m => .ok (parseGmailMessage m)
  | .error s =>
    .error ⟨"Failed to fetch email: " ++ s, "google_workspace",
      some "get_email_content"⟩

/-- Stated from the spec's words, for comparison with the code: a payload has
an attachment-bearing part if some part of its substructure, including nested
sub-parts, carries a non-empty (stripped) filename. -/
def specDeepHasAttachment : GmailPayload → Bool
  | .mk _ _ f _ ps =>
    filenameTruthy f ||
      (match ps with
       | none => false
       | some l => l.attach.any (fun p => specDeepHasAttachment p.1))
termination_by p => sizeOf p
decreasing_by
  have h := List.sizeOf_lt_of_mem p.2
  simp only [GmailPayload.mk.sizeOf_spec, Option.some.sizeOf_spec]
  omega

/-! ### Google Workspace: calendar events (`get_calendar_event`) -/

/-- One entry of `attendees` of a Calendar API event. -/
structure GEventAttendee where
  email : Option String
deriving DecidableEq, Repr

/-- The `organizer` object of a Calendar API event. -/
structure GEventOrganizer where
  email : Option String
deriving DecidableEq, Repr

/-- A Calendar API event, restricted to the keys the code reads.  `start`,
`endTime` (JSON key `"end"`) and `conferenceData` are returned or tested
opaquely, so they are modelled as optional opaque strings. -/
structure GEvent where
  id : String
  summary : Option String
  description : Option String
  location : Option String
  start : Option String
  endTime : Option String
  attendees : List GEventAttendee
  organizer : Option GEventOrganizer
  status : Option String
  recurringEventId : Option String
  eventType : Option String
  conferenceData : Option String
deriving DecidableEq, Repr

/-- The dict returned by `get_calendar_event` for Google. -/
structure GEventOut where
  id : String
  summary : Option String
  description : Option String
  location : Option String
  start : Option String
  endTime : Option String
  attendees : List (Option String)
  organizer : Option String
  status : Option String
  isRecurring : Bool
  eventType : Option String
  isOnlineMeeting : Bool
deriving DecidableEq, Repr

/-- Embeds `GoogleWorkspaceIntegration.get_calendar_event`: a fetch failure is
translated by the `except Exception` handler; a fetched event is mapped
field-by-field (`isRecurring` is `"recurringEventId" in event`,
`isOnlineMeeting` is `event.get("conferenceData") is not None`). -/
def googleGetCalendarEvent (fetch : Except String GEvent) :
    Except IntegrationException GEventOut :=
  match fetch with
  | .error s =>
    .error ⟨"Failed to fetch event: " ++ s, "google_workspace",
      some "get_calendar_event"⟩
  | .ok e =>
    .ok { id := e.id
          summary := e.summary
          description := e.description
          location := e.location
          start := e.start
          endTime := e.endTime
          attendees := e.attendees.map (fun a => a.email)
          organizer := e.organizer.bind (fun o => o.email)
          status := e.status
          isRecurring := e.recurringEventId.isSome
          eventType := e.eventType
          isOnlineMeeting := e.conferenceData.isSome }

/-! ### Google Workspace: subscriptions (`subscribe_to_realtime_events`,
`renew_subscription`) -/

/-- Deployment configuration `settings.GCP_PROJECT_ID`, modelled as an
abstract constant (its value is irrelevant to every claim). -/
def gcpProjectId : String := "gcp-project"

/-- Deployment configuration `settings.PUBSUB_TOPIC`. -/
def pubsubTopic : String := "pubsub-topic"

/-- The provider's reply to `users().watch(...)` (Gmail). -/
structure GmailWatchResp where
  historyId : Option String
  expiration : Option String
deriving DecidableEq, Repr

/-- The provider's reply to `events().watch(...)` (Calendar). -/
structure CalWatchResp where
  id : Option String
  resourceId : Option String
  expiration : Option String
deriving DecidableEq, Repr

/-- The body of the Calendar `events().watch` request as built at lines
312-323 of `google.py`; `paramsUserId` is `body["params"]["userId"]`. -/
structure CalWatchRequest where
  channelId : String
  type : String
  address : String
  paramsUserId : String
deriving DecidableEq, Repr

/-- The `subscriptions` dict returned by `subscribe_to_realtime_events`:
`{"gmail": {...}, "calendar": {...}}` flattened into one record. -/
structure GoogleSubs where
  gmailHistoryId : Option String
  gmailExpiration : Option String
  calendarChannelId : Option String
  calendarResourceId : Option String
  calendarExpiration : Option String
deriving DecidableEq, Repr

/-- Embeds `GoogleWorkspaceIntegration.subscribe_to_realtime_events` on
scripted watch replies.  `channelId` models the `uuid.uuid4()` draw.  The
Gmail watch is issued first; if it fails the Calendar watch request is never
built, which the second component (`Option CalWatchRequest`) records. -/
def googleSubscribe (userId : String) (channelId : String)
    (gmailResp : Except String GmailWatchResp)
    (calResp : Except String CalWatchResp) :
    Except IntegrationException GoogleSubs × Option CalWatchRequest :=
  match gmailResp with
  | .error s =>
    (.error ⟨"Failed to subscribe: " ++ s, "google_workspace",
      some "subscribe_to_realtime_events"⟩, none)
  | .ok gw =>
    let req : CalWatchRequest :=
      { channelId := channelId
        type := "web_hook"
        address := "https://pubsub.googleapis.com/v1/projects/" ++
          gcpProjectId ++ "/topics/" ++ pubsubTopic ++ ":publish"
        paramsUserId := userId }
    match calResp with
    | .error s =>
      (.error ⟨"Failed to subscribe: " ++ s, "google_workspace",
        some "subscribe_to_realtime_events"⟩, some req)
    | .ok cw =>
      (.ok { gmailHistoryId := gw.historyId
             gmailExpiration := gw.expiration
             calendarChannelId := cw.id
             calendarResourceId := cw.resourceId
             calendarExpiration := cw.expiration }, some req)

/-- Embeds `GoogleWorkspaceIntegration.renew_subscription` (lines 342-360):
`return await self.subscribe_to_realtime_events(subscription_id, None)`.
The `expiration_date` argument is never read. -/
def googleRenewSubscription (subscriptionId : String)
    (expirationDate : String) (channelId : String)
    (gmailResp : Except String GmailWatchResp)
    (calResp : Except String CalWatchResp) :
    Except IntegrationException GoogleSubs × Option CalWatchRequest :=
  googleSubscribe subscriptionId channelId gmailResp calResp

/-! ### Microsoft 365: email and calendar (`get_email_content`,
`get_calendar_event`) -/

/-- A Graph `emailAddress` object. -/
structure MsEmailAddress where
  address : Option String
deriving DecidableEq, Repr

/-- A Graph recipient / organizer / from object:
`r.get("emailAddress", {}).get("address")`. -/
structure MsRecipient where
  emailAddress : Option MsEmailAddress
deriving DecidableEq, Repr

/-- The address of a recipient-shaped object. -/
def msAddr (r : MsRecipient) : Option String :=
  r.emailAddress.bind (fun a => a.address)

/-- A Graph `body` object. -/
structure MsBody where
  content : Option String
  contentType : Option String
deriving DecidableEq, Repr

/-- A Graph message, restricted to the keys `get_email_content` reads. -/
structure MsMessage where
  id : String
  conversationId : Option String
  fromField : Option MsRecipient
  toRecipients : List MsRecipient
  ccRecipients : List MsRecipient
  bccRecipients : List MsRecipient
  subject : Option String
  receivedDateTime : Option String
  body : Option MsBody
  importance : Option String
  isDraft : Option Bool
  isRead : Option Bool
  hasAttachments : Option Bool
deriving DecidableEq, Repr

/-- The dict returned by `get_email_content` for Microsoft.  Note that
`hasAttachments` is copied from the provider's top-level flag
(`message.get("hasAttachments")`), with no substructure inspection. -/
structure MsEmailOut where
  id : String
  conversationId : Option String
  fromAddr : Option String
  toAddrs : List (Option String)
  subject : Option String
  date : Option String
  content : Option String
  contentType : Option String
  importance : Option String
  isDraft : Option Bool
  isRead : Option Bool
  hasAttachments : Option Bool
deriving DecidableEq, Repr

/-- Embeds `Microsoft365Integration.get_email_content` on a scripted fetch. -/
def msGetEmailContent (fetch : Except MsFailure MsMessage) :
    Except IntegrationException MsEmailOut :=
  match fetch with
  | .error (.httpStatus code _) =>
    .error ⟨"Failed to fetch email: HTTP " ++ toString code,
      "microsoft_365", some "get_email_content"⟩
  | .error (.otherExc msg) =>
    .error ⟨"Failed to fetch email: " ++ msg,
      "microsoft_365", some "get_email_content"⟩
  | .ok m =>
    let recipients := m.toRecipients.map msAddr ++ m.ccRecipients.map msAddr ++
      m.bccRecipients.map msAddr
    .ok { id := m.id
          conversationId := m.conversationId
          fromAddr := m.fromField.bind msAddr
          toAddrs := recipients
          subject := m.subject
          date := m.receivedDateTime
          content := m.body.bind (fun b => b.content)
          contentType := m.body.bind (fun b => b.contentType)
          importance := m.importance
          isDraft := m.isDraft
          isRead := m.isRead
          hasAttachments := m.hasAttachments }

/-- A Graph `location` object. -/
structure MsLocation where
  displayName : Option String
deriving DecidableEq, Repr

/-- A Graph `responseStatus` object. -/
structure MsResponseStatus where
  response : Option String
deriving DecidableEq, Repr

/-- A Graph event, restricted to the keys `get_calendar_event` reads.
`start`, `endTime` (JSON key `"end"`) and `recurrence` are returned opaquely. -/
structure MsEvent where
  id : String
  subject : Option String
  body : Option MsBody
  location : Option MsLocation
  start : Option String
  endTime : Option String
  attendees : List MsRecipient
  organizer : Option MsRecipient
  isOrganizer : Option Bool
  isAllDay : Option Bool
  isCancelled : Option Bool
  recurrence : Option String
  isDraft : Option Bool
  importance : Option String
  sensitivity : Option String
  isOnlineMeeting : Option Bool
  responseStatus : Option MsResponseStatus
deriving DecidableEq, Repr

/-- The dict returned by `get_calendar_event` for Microsoft. -/
structure MsEventOut where
  id : String
  summary : Option String
  description : Option String
  location : Option String
  start : Option String
  endTime : Option String
  attendees : List (Option String)
  organizer : Option String
  isOrganizer : Option Bool
  content : Option String
  contentType : Option String
  isAllDay : Option Bool
  isCancelled : Option Bool
  isRecurring : Bool
  isDraft : Option Bool
  importance : Option String
  sensitivity : Option String
  recurrence : Option String
  isOnlineMeeting : Option Bool
  response : Option String
deriving DecidableEq, Repr

/-- Embeds `Microsoft365Integration.get_calendar_event` on a scripted fetch. -/
def msGetCalendarEvent (fetch : Except MsFailure MsEvent) :
    Except IntegrationException MsEventOut :=
  match fetch with
  | .error (.httpStatus code _) =>
    .error ⟨"Failed to fetch event: HTTP " ++ toString code,
      "microsoft_365", some "get_calendar_event"⟩
  | .error (.otherExc msg) =>
    .error ⟨"Failed to fetch event: " ++ msg,
      "microsoft_365", some "get_calendar_event"⟩
  | .ok e =>
    .ok { id := e.id
          summary := e.subject
          description := e.body.bind (fun b => b.content)
          location := e.location.bind (fun l => l.displayName)
          start := e.start
          endTime := e.endTime
          attendees := e.attendees.map msAddr
          organizer := e.organizer.bind msAddr
          isOrganizer := e.isOrganizer
          content := e.body.bind (fun b => b.content)
          contentType := e.body.bind (fun b => b.contentType)
          isAllDay := e.isAllDay
          isCancelled := e.isCancelled
          isRecurring := e.recurrence.isSome
          isDraft := e.isDraft
          importance := e.importance
          sensitivity := e.sensitivity
          recurrence := e.recurrence
          isOnlineMeeting := e.isOnlineMeeting
          response := e.responseStatus.bind (fun r => r.response) }

/-! ### Microsoft 365: subscriptions (`subscribe_to_realtime_events`,
`_create_subscription`, `renew_subscription`) -/

/-- The provider's JSON reply to `POST /subscriptions`, restricted to the keys
`_create_subscription` reads (modelled as a well-formed reply; a missing key
would raise `KeyError`, reaching the same generic handler as any other
failure). -/
structure MsSubResp where
  id : String
  resource : String
  expirationDateTime : String
deriving DecidableEq, Repr

/-- The request body built by `_create_subscription` (lines 339-346). -/
structure MsSubRequest where
  changeType : String
  notificationUrl : String
  resource : String
  expirationDateTime : String
  clientState : String
  latestSupportedTlsVersion : String
deriving DecidableEq, Repr

/-- The dict returned by `_create_subscription` (lines 355-360). -/
structure MsSubOut where
  id : String
  resource : String
  expirationDateTime : String
  clientState : String
deriving DecidableEq, Repr

/-- Embeds `Microsoft365Integration._create_subscription` on a scripted POST
reply; also returns the request body it sent. -/
def msCreateSubscription (resource : String) (changeTypes : List String)
    (notificationUrl clientState expiration : String)
    (resp : Except MsFailure MsSubResp) :
    Except MsFailure MsSubOut × MsSubRequest :=
  let body : MsSubRequest :=
    { changeType := String.intercalate "," changeTypes
      notificationUrl := notificationUrl
      resource := resource
      expirationDateTime := expiration
      clientState := clientState
      latestSupportedTlsVersion := "v1_2" }
  match resp with
  | .error f => (.error f, body)
  | .ok s =>
    (.ok { id := s.id
           resource := s.resource
           expirationDateTime := s.expirationDateTime
           clientState := clientState }, body)

/-- Embeds `Microsoft365Integration.subscribe_to_realtime_events`.
`generate_client_state` lives in `app.core.security`, outside the provided
sources; it is modelled from the spec ("Client state: opaque string issued at
subscription creation") as drawing the next value of a stream `gen` at counter
`n`, returning the advanced counter.  `expiration` stands for the
wall-clock-derived `utcnow() + 3 days` string.  The email subscription is
created first; its failure prevents the calendar request. -/
def msSubscribe (notificationUrl : String) (gen : Nat → String) (n : Nat)
    (expiration : String) (emailResp calResp : Except MsFailure MsSubResp) :
    Except IntegrationException (MsSubOut × MsSubOut) × Nat :=
  let clientState := gen n
  let n2 := n + 1
  match (msCreateSubscription "/me/messages" ["created", "updated"]
      notificationUrl clientState expiration emailResp).1 with
  | .error f =>
    (.error ⟨"Failed to subscribe: " ++ msFailureStr f, "microsoft_365",
      some "subscribe_to_realtime_events"⟩, n2)
  | .ok emailSub =>
    match (msCreateSubscription "/me/events" ["created", "updated", "deleted"]
        notificationUrl clientState expiration calResp).1 with
    | .error f =>
      (.error ⟨"Failed to subscribe: " ++ msFailureStr f, "microsoft_365",
        some "subscribe_to_realtime_events"⟩, n2)
    | .ok calSub => (.ok (emailSub, calSub), n2)

/-- The PATCH request issued by `renew_subscription` for Microsoft. -/
structure MsRenewRequest where
  url : String
  bodyExpirationDateTime : String
deriving DecidableEq, Repr

/-- Embeds `Microsoft365Integration.renew_subscription`: the provider's JSON
reply (of arbitrary shape `α`) is returned unchanged; any failure is wrapped
by the `except Exception` handler. -/
def msRenewSubscription {α : Type} (subscriptionId expirationDate : String)
    (resp : Except MsFailure α) :
    Except IntegrationException α × MsRenewRequest :=
  let req : MsRenewRequest :=
    { url := GRAPH_BASE_URL ++ "/subscriptions/" ++ subscriptionId
      bodyExpirationDateTime := expirationDate }
  match resp with
  | .ok j => (.ok j, req)
  | .error f =>
    (.error ⟨"Failed to renew subscription: " ++ msFailureStr f,
      "microsoft_365", some "renew_subscription"⟩, req)

/-! ### Subscription Lifecycle Manager (spec §4.3) -/

/-- Modelled from the spec: the per-subscription states of the Subscription
Lifecycle Manager, a component described in spec §4.3 that has no
implementation under the provided sources. -/
inductive SubState where
  | pending
  | active
  | expiringSoon
  | renewed
  | expired
deriving DecidableEq, Repr

/-- Modelled from the spec: a tracked subscription record
`{id, provider, resource_kind, account_id, expires_at, state}` (spec §3
"Subscription" plus the §4.3 state). -/
structure SubRecord where
  id : String
  provider : String
  resourceKind : String
  accountId : String
  expiresAt : Nat
  state : SubState
deriving DecidableEq, Repr

/-- A record that currently represents a live registration: `Active` or
`ExpiringSoon` (an `ExpiringSoon` record is still the registration that a
renewal supersedes). -/
def isLive (r : SubRecord) : Bool :=
  r.state == SubState.active || r.state == SubState.expiringSoon

/-- Whether `r` is a live registration for the given
`(provider, resource_kind, account_id)` triple. -/
def liveFor (p rk a : String) (r : SubRecord) : Bool :=
  isLive r && r.provider == p && r.resourceKind == rk && r.accountId == a

/-- Whether `r` is an `Active` record for the given triple. -/
def activeFor (p rk a : String) (r : SubRecord) : Bool :=
  r.state == SubState.active && r.provider == p && r.resourceKind == rk &&
    r.accountId == a

/-- Modelled from the spec: the operations of the Subscription Lifecycle
Manager (spec §4.3): a confirmed `create_subscription`, the periodic
expiry scan at a given time with a renewal lead time, and a successful
`renew_subscription` of a tracked record. -/
inductive MgrOp where
  | create (provider resourceKind accountId id : String) (expiresAt : Nat)
  | scan (now lead : Nat)
  | renew (oldId newId : String) (newExpiresAt : Nat)
deriving DecidableEq, Repr

/-- Modelled from the spec: whether the manager already tracks a live
registration for the triple.  Spec §4.3 requires an `Expired` subscription to
be "recreated from scratch via `create_subscription`", and renewal to
"supersede, never duplicate"; accordingly `create` only confirms a new
`Active` record when no live registration for the triple exists. -/
def hasLiveTriple (s : List SubRecord) (p rk a : String) : Bool :=
  s.any (liveFor p rk a)

/-- Modelled from the spec: one state transition of the Subscription Lifecycle
Manager (spec §4.3).  `create` confirms a new `Active` record (refused while a
live registration for the triple exists); `scan now lead` moves `Active`
records within the lead window to `ExpiringSoon` and `ExpiringSoon` records
past their deadline to `Expired`; `renew` supersedes an `ExpiringSoon` record
in place with a fresh `Active` record carrying the provider-issued id and
expiry (the old id is retired). -/
def applyOp (s : List SubRecord) : MgrOp → List SubRecord
  | .create p rk a id exp =>
    if hasLiveTriple s p rk a then s
    else s ++ [⟨id, p, rk, a, exp, SubState.active⟩]
  | .scan now lead =>
    s.map (fun r =>
      if r.state == SubState.active && r.expiresAt ≤ now + lead then
        { r with state := SubState.expiringSoon }
      else if r.state == SubState.expiringSoon && r.expiresAt ≤ now then
        { r with state := SubState.expired }
      else r)
  | .renew oldId newId newExp =>
    s.map (fun r =>
      if r.id == oldId && r.state == SubState.expiringSoon then
        { r with id := newId, expiresAt := newExp, state := SubState.active }
      else r)

/-- The manager state reached by a sequence of operations from the empty
tracking state. -/
def runMgr (ops : List MgrOp) : List SubRecord :=
  ops.foldl applyOp []

/-- The number of live registrations tracked for a triple. -/
def liveCount (s : List SubRecord) (p rk a : String) : Nat :=
  (s.filter (liveFor p rk a)).length

/-- The number of `Active` records tracked for a triple. -/
def activeCount (s : List SubRecord) (p rk a : String) : Nat :=
  (s.filter (activeFor p rk a)).length

/-! ### Helper lemmas -/

theorem optTruthy_none : optTruthy none = false := rfl

theorem optTruthy_some (s : String) : optTruthy (some s) = (s != "") := rfl

theorem gMkParams_sync {st : Option String} (pt : Option String)
    (h : optTruthy st = true) : gMkParams st pt = { syncToken := st } := by
  simp [gMkParams, h]

theorem gMkParams_page {st pt : Option String} (h1 : optTruthy st = false)
    (h2 : optTruthy pt = true) : gMkParams st pt = { pageToken := pt } := by
  simp [gMkParams, h1, h2]

theorem gMkParams_fresh {st pt : Option String} (h1 : optTruthy st = false)
    (h2 : optTruthy pt = false) :
    gMkParams st pt = { requestSyncToken := true } := by
  simp [gMkParams, h1, h2]

/-- Every run of the Google loop first records the request parameters built
from the current sync/page tokens: the resulting trace extends the input trace
with `gMkParams st pt` as its next element. -/
theorem gAux_trace_head (st pt : Option String) (acc : List Contact)
    (script : List GoogleResp) (tr : List GoogleParams) :
    ∃ ext, (gAux st pt acc script tr).2 = tr ++ gMkParams st pt :: ext := by
  induction script generalizing st pt acc tr with
  | nil => exact ⟨[], by simp [gAux]⟩
  | cons resp rest ih =>
    cases resp with
    | httpError status msg =>
      by_cases h : (status == 410 && optTruthy st) = true
      · obtain ⟨ext, hext⟩ := ih none none [] (tr ++ [gMkParams st pt])
        refine ⟨gMkParams none none :: ext, ?_⟩
        simp only [gAux, h, if_true]
        rw [hext]
        simp
      · exact ⟨[], by simp [gAux, h]⟩
    | page cs npt nst =>
      by_cases h : optTruthy npt = true
      · obtain ⟨ext, hext⟩ :=
          ih st npt (acc ++ cs.filterMap parseGoogleContact) (tr ++ [gMkParams st pt])
        refine ⟨gMkParams st npt :: ext, ?_⟩
        simp only [gAux, h, if_true]
        rw [hext]
        simp
      · exact ⟨[], by simp [gAux, h]⟩

/-- The request recorded at position `tr.length` of the resulting trace is the
one built from the current sync/page tokens. -/
theorem gAux_trace_get (st pt : Option String) (acc : List Contact)
    (script : List GoogleResp) (tr : List GoogleParams) :
    (gAux st pt acc script tr).2[tr.length]? = some (gMkParams st pt) := by
  obtain ⟨ext, hext⟩ := gAux_trace_head st pt acc script tr
  rw [hext, List.getElem?_append_right (Nat.le_refl _)]
  simp

/-- The outcome of the Google loop does not depend on the trace accumulator. -/
theorem gAux_fst_trace_irrel (st pt : Option String) (acc : List Contact)
    (script : List GoogleResp) (tr tr' : List GoogleParams) :
    (gAux st pt acc script tr).1 = (gAux st pt acc script tr').1 := by
  induction script generalizing st pt acc tr tr' with
  | nil => simp [gAux]
  | cons resp rest ih =>
    cases resp with
    | httpError status msg =>
      by_cases h : (status == 410 && optTruthy st) = true
      · simp only [gAux, h, if_true]
        rw [ih none none [] (tr ++ [gMkParams st pt]) (tr' ++ [gMkParams st pt])]
      · simp [gAux, h]
    | page cs npt nst =>
      by_cases h : optTruthy npt = true
      · simp only [gAux, h, if_true]
        exact ih st npt _ _ _
      · simp [gAux, h]

/-- Every run of the Microsoft loop first records the URL it requests. -/
theorem msAux_trace_head (url : String) (acc : List Contact)
    (script : List MsResp) (tr : List String) :
    ∃ ext, (msAux url acc script tr).2 = tr ++ url :: ext := by
  induction script generalizing url acc tr with
  | nil => exact ⟨[], by simp [msAux]⟩
  | cons resp rest ih =>
    cases resp with
    | fail f =>
      cases f with
      | httpStatus code msg => exact ⟨[], by simp [msAux]⟩
      | otherExc msg => exact ⟨[], by simp [msAux]⟩
    | page v nl dl =>
      cases nl with
      | none => exact ⟨[], by simp [msAux]⟩
      | some nlv =>
        by_cases h : (nlv != "") = true
        · obtain ⟨ext, hext⟩ :=
            ih nlv (acc ++ v.filterMap parseMicrosoftContact) (tr ++ [url])
          refine ⟨nlv :: ext, ?_⟩
          simp only [msAux, h, if_true]
          rw [hext]
          simp
        · exact ⟨[], by simp [msAux, h]⟩

/-- The URL recorded at position `tr.length` of the resulting trace is the one
currently being requested. -/
theorem msAux_trace_get (url : String) (acc : List Contact)
    (script : List MsResp) (tr : List String) :
    (msAux url acc script tr).2[tr.length]? = some url := by
  obtain ⟨ext, hext⟩ := msAux_trace_head url acc script tr
  rw [hext, List.getElem?_append_right (Nat.le_refl _)]
  simp

/-- The shared tail of both contact parsers: returning
`some contact` guarded by a non-emptiness test on the identifier list means
the returned contact has identifiers. -/
theorem parseContact_guard {l : List Identifier} {idv nm : Option String}
    {ct : Contact}
    (h : (if l.isEmpty = true then none
          else some ({ id := idv, name := nm, identifiers := l } : Contact)) =
        some ct) :
    ct.identifiers ≠ [] := by
  split at h
  · cases h
  · next hne =>
    cases h
    simpa using hne

/-- A parsed contact always carries at least one identifier
(`_parse_google_contact` returns `None` otherwise). -/
theorem parseGoogleContact_ids (c : GoogleConnection) (ct : Contact)
    (h : parseGoogleContact c = some ct) : ct.identifiers ≠ [] := by
  simp only [parseGoogleContact] at h
  exact parseContact_guard h

/-- A parsed Microsoft contact always carries at least one identifier. -/
theorem parseMicrosoftContact_ids (c : MsContact) (ct : Contact)
    (h : parseMicrosoftContact c = some ct) : ct.identifiers ≠ [] := by
  simp only [parseMicrosoftContact] at h
  exact parseContact_guard h

/-- Loop invariant for the Google contacts loop: if every accumulated contact
has identifiers and the loop succeeds, every returned contact has
identifiers. -/
theorem gAux_ok_ids (st pt : Option String) (acc : List Contact)
    (script : List GoogleResp) (tr : List GoogleParams)
    (hacc : ∀ c ∈ acc, c.identifiers ≠ []) (cs : List Contact)
    (nst : Option String) (h : (gAux st pt acc script tr).1 = GResult.ok cs nst) :
    ∀ c ∈ cs, c.identifiers ≠ [] := by
  induction script generalizing st pt acc tr with
  | nil => simp [gAux] at h
  | cons resp rest ih =>
    cases resp with
    | httpError status msg =>
      by_cases hc : (status == 410 && optTruthy st) = true
      · simp only [gAux, hc, if_true] at h
        have hin : (gAux none none [] rest (tr ++ [gMkParams st pt])).1 =
            GResult.ok cs nst := by
          cases hr : (gAux none none [] rest (tr ++ [gMkParams st pt])).1 with
          | ok a b => rw [hr] at h; simpa [gWrapErr] using h
          | err e => rw [hr] at h; simp [gWrapErr] at h
          | outOfScript => rw [hr] at h; simp [gWrapErr] at h
        exact ih none none [] _ (by simp) hin
      · simp [gAux, hc] at h
    | page conns npt nst2 =>
      have hacc2 : ∀ c ∈ acc ++ conns.filterMap parseGoogleContact,
          c.identifiers ≠ [] := by
        intro c hc
        rcases List.mem_append.mp hc with hl | hr
        · exact hacc c hl
        · obtain ⟨a, _, ha⟩ := List.mem_filterMap.mp hr
          exact parseGoogleContact_ids a c ha
      by_cases hc : optTruthy npt = true
      · simp only [gAux, hc, if_true] at h
        exact ih st npt _ _ hacc2 h
      · simp only [gAux, hc, if_false, Bool.false_eq_true] at h
        cases h
        exact hacc2

/-- Loop invariant for the Microsoft contacts loop. -/
theorem msAux_done_ids (url : String) (acc : List Contact)
    (script : List MsResp) (tr : List String)
    (hacc : ∀ c ∈ acc, c.identifiers ≠ []) (cs : List Contact)
    (dl : Option String) (h : (msAux url acc script tr).1 = MsLoopResult.done cs dl) :
    ∀ c ∈ cs, c.identifiers ≠ [] := by
  induction script generalizing url acc tr with
  | nil => simp [msAux] at h
  | cons resp rest ih =>
    cases resp with
    | fail f => cases f <;> simp [msAux] at h
    | page v nl dl2 =>
      have hacc2 : ∀ c ∈ acc ++ v.filterMap parseMicrosoftContact,
          c.identifiers ≠ [] := by
        intro c hc
        rcases List.mem_append.mp hc with hl | hr
        · exact hacc c hl
        · obtain ⟨a, _, ha⟩ := List.mem_filterMap.mp hr
          exact parseMicrosoftContact_ids a c ha
      cases nl with
      | none =>
        simp only [msAux] at h
        cases h
        exact hacc2
      | some nlv =>
        by_cases hc : (nlv != "") = true
        · simp only [msAux, hc, if_true] at h
          exact ih nlv _ _ hacc2 h
        · simp only [msAux, hc, if_false, Bool.false_eq_true] at h
          cases h
          exact hacc2

/-- Every error produced by the Google contacts loop carries the
`google_workspace` / `get_contacts` tags. -/
theorem gAux_err_tags (st pt : Option String) (acc : List Contact)
    (script : List GoogleResp) (tr : List GoogleParams)
    (e : IntegrationException)
    (h : (gAux st pt acc script tr).1 = GResult.err e) :
    e.provider = "google_workspace" ∧ e.operation = some "get_contacts" := by
  induction script generalizing st pt acc tr with
  | nil => simp [gAux] at h
  | cons resp rest ih =>
    cases resp with
    | httpError status msg =>
      by_cases hc : (status == 410 && optTruthy st) = true
      · simp only [gAux, hc, if_true] at h
        cases hr : (gAux none none [] rest (tr ++ [gMkParams st pt])).1 with
        | ok a b => rw [hr] at h; simp [gWrapErr] at h
        | err e2 =>
          rw [hr] at h
          simp only [gWrapErr] at h
          cases h
          exact ⟨rfl, rfl⟩
        | outOfScript => rw [hr] at h; simp [gWrapErr] at h
      · simp only [gAux, hc, if_false, Bool.false_eq_true] at h
        cases h
        exact ⟨rfl, rfl⟩
    | page conns npt nst2 =>
      by_cases hc : optTruthy npt = true
      · simp only [gAux, hc, if_true] at h
        exact ih st npt _ _ h
      · simp only [gAux, hc, if_false, Bool.false_eq_true] at h
        cases h

/-- Every error produced by the Microsoft contacts loop carries the
`microsoft_365` / `get_contacts` tags. -/
theorem msAux_err_tags (url : String) (acc : List Contact)
    (script : List MsResp) (tr : List String) (e : IntegrationException)
    (h : (msAux url acc script tr).1 = MsLoopResult.err e) :
    e.provider = "microsoft_365" ∧ e.operation = some "get_contacts" := by
  induction script generalizing url acc tr with
  | nil => simp [msAux] at h
  | cons resp rest ih =>
    cases resp with
    | fail f =>
      cases f with
      | httpStatus code msg =>
        simp only [msAux] at h
        cases h
        exact ⟨rfl, rfl⟩
      | otherExc msg =>
        simp only [msAux] at h
        cases h
        exact ⟨rfl, rfl⟩
    | page v nl dl =>
      cases nl with
      | none => simp [msAux] at h
      | some nlv =>
        by_cases hc : (nlv != "") = true
        · simp only [msAux, hc, if_true] at h
          exact ih nlv _ _ h
        · simp only [msAux, hc, if_false, Bool.false_eq_true] at h
          cases h

/-! ### Lemmas for the Subscription Lifecycle Manager invariant -/

/-- An `Active` record for a triple is in particular a live record for it. -/
theorem activeFor_liveFor {p rk a : String} {r : SubRecord}
    (h : activeFor p rk a r = true) : liveFor p rk a r = true := by
  simp only [activeFor, Bool.and_eq_true] at h
  simp [liveFor, isLive, h.1.1.1, h.1.1.2, h.1.2, h.2]

/-- There are at most as many `Active` records as live records per triple. -/
theorem activeCount_le_liveCount (s : List SubRecord) (p rk a : String) :
    activeCount s p rk a ≤ liveCount s p rk a := by
  induction s with
  | nil => simp [activeCount, liveCount]
  | cons r rest ih =>
    simp only [activeCount, liveCount, List.filter_cons] at *
    by_cases hA : activeFor p rk a r = true
    · rw [if_pos hA, if_pos (activeFor_liveFor hA)]
      simpa using ih
    · rw [if_neg hA]
      by_cases hL : liveFor p rk a r = true
      · rw [if_pos hL]
        exact Nat.le_succ_of_le ih
      · rw [if_neg hL]
        exact ih

/-- A pointwise transformation that never turns a non-live-for-the-triple
record into a live one cannot increase the live count. -/
theorem liveCount_map_le (f : SubRecord → SubRecord) (s : List SubRecord)
    (p rk a : String)
    (hf : ∀ r, liveFor p rk a (f r) = true → liveFor p rk a r = true) :
    liveCount (s.map f) p rk a ≤ liveCount s p rk a := by
  induction s with
  | nil => simp [liveCount]
  | cons r rest ih =>
    simp only [liveCount, List.map_cons, List.filter_cons] at *
    by_cases hfr : liveFor p rk a (f r) = true
    · rw [if_pos hfr, if_pos (hf r hfr)]
      simpa using ih
    · rw [if_neg hfr]
      by_cases hr : liveFor p rk a r = true
      · rw [if_pos hr]
        exact Nat.le_succ_of_le ih
      · rw [if_neg hr]
        exact ih

/-- Appending one record adds at most one to the live count. -/
theorem liveCount_append_single (s : List SubRecord) (r : SubRecord)
    (p rk a : String) :
    liveCount (s ++ [r]) p rk a =
      liveCount s p rk a + (if liveFor p rk a r = true then 1 else 0) := by
  simp only [liveCount, List.filter_append, List.length_append]
  by_cases h : liveFor p rk a r = true
  · simp [List.filter_cons, h]
  · simp [List.filter_cons, h]

/-- If no record of `s` is live for the triple, the live count is zero. -/
theorem liveCount_eq_zero_of_not_any (s : List SubRecord) (p rk a : String)
    (h : s.any (liveFor p rk a) = false) : liveCount s p rk a = 0 := by
  simp only [liveCount, List.length_eq_zero]
  rw [List.filter_eq_nil_iff]
  intro r hr
  intro hc
  rw [List.any_eq_false] at h
  exact h r hr hc

/-- Each manager operation preserves "at most one live registration per
`(provider, resource_kind, account_id)` triple". -/
theorem applyOp_live_le_one (s : List SubRecord) (op : MgrOp)
    (hs : ∀ p rk a, liveCount s p rk a ≤ 1) :
    ∀ p rk a, liveCount (applyOp s op) p rk a ≤ 1 := by
  intro p rk a
  cases op with
  | create p0 rk0 a0 id exp =>
    simp only [applyOp]
    by_cases hg : hasLiveTriple s p0 rk0 a0 = true
    · rw [if_pos hg]
      exact hs p rk a
    · rw [if_neg hg, liveCount_append_single]
      by_cases hl :
          liveFor p rk a ⟨id, p0, rk0, a0, exp, SubState.active⟩ = true
      · simp only [liveFor, isLive, Bool.and_eq_true, Bool.or_eq_true,
          beq_iff_eq] at hl
        obtain ⟨⟨⟨_, hp⟩, hrk⟩, ha⟩ := hl
        subst hp; subst hrk; subst ha
        rw [liveCount_eq_zero_of_not_any s p0 rk0 a0
          (Bool.not_eq_true _ ▸ hg), if_pos]
        · simp [liveFor, isLive]
      · rw [if_neg hl]
        simpa using hs p rk a
  | scan now lead =>
    simp only [applyOp]
    refine le_trans (liveCount_map_le _ s p rk a ?_) (hs p rk a)
    intro r hr
    split at hr
    · next hc1 =>
      simp only [Bool.and_eq_true, beq_iff_eq] at hc1
      simp only [liveFor, isLive, Bool.and_eq_true, Bool.or_eq_true,
        beq_iff_eq] at hr ⊢
      exact ⟨⟨⟨Or.inl hc1.1, hr.1.1.2⟩, hr.1.2⟩, hr.2⟩
    · split at hr
      · next hc2 =>
        simp [liveFor, isLive] at hr
      · exact hr
  | renew oldId newId newExp =>
    simp only [applyOp]
    refine le_trans (liveCount_map_le _ s p rk a ?_) (hs p rk a)
    intro r hr
    split at hr
    · next hc =>
      simp only [Bool.and_eq_true, beq_iff_eq] at hc
      simp only [liveFor, isLive, Bool.and_eq_true, Bool.or_eq_true,
        beq_iff_eq] at hr ⊢
      exact ⟨⟨⟨Or.inr hc.2, hr.1.1.2⟩, hr.1.2⟩, hr.2⟩
    · exact hr

/-- The live-per-triple bound is preserved along any operation sequence. -/
theorem foldl_live_le_one (ops : List MgrOp) (s : List SubRecord)
    (hs : ∀ p rk a, liveCount s p rk a ≤ 1) :
    ∀ p rk a, liveCount (ops.foldl applyOp s) p rk a ≤ 1 := by
  induction ops generalizing s with
  | nil => exact hs
  | cons op rest ih =>
    exact ih (applyOp s op) (applyOp_live_le_one s op hs)

/-! ### Claim theorems -/

/-- C1: evaluation of the code at the failing input.  For the Google variant
(the provider without true renewal), `renew_subscription` recreates the watch
subscriptions by passing the *subscription id* where an account user id is
expected: the calendar watch request it issues carries
`params.userId = subscription_id`, so the original account scope of the input
subscription is not preserved; moreover the `expiration_date` argument is
ignored entirely, so nothing relates the new expiry to the old one. -/
theorem c1_renew_misroutes_account :
    (∀ (d ch : String) (gw : GmailWatchResp) (cal : Except String CalWatchResp),
      (googleRenewSubscription "sub-123" d ch (Except.ok gw) cal).2.map
        CalWatchRequest.paramsUserId = some "sub-123") ∧
    (∀ (subId d1 d2 ch : String) (gr : Except String GmailWatchResp)
       (cr : Except String CalWatchResp),
      googleRenewSubscription subId d1 ch gr cr =
        googleRenewSubscription subId d2 ch gr cr) := by
  constructor
  · intro d ch gw cal
    cases cal <;> rfl
  · intro subId d1 d2 ch gr cr
    rfl

/-- C2 counterexample: the claim quantifies over every adapter variant, but
the Microsoft variant has no stale-token recovery at all.  An incremental
call whose delta token is rejected with 410 Gone raises a translated error
after a single request — no full-sync restart is attempted. -/
theorem c2_counterexample :
    msGetContacts (some "TOK")
        [MsResp.fail (MsFailure.httpStatus 410 "410 Gone")] =
      (MsResult.err ⟨"Failed to fetch contacts: HTTP 410", "microsoft_365",
        some "get_contacts"⟩,
       [msDeltaUrl "TOK"]) := by
  decide

/-- C2 amended: only the Google variant recovers from a rejected sync token:
it restarts exactly once as a full sync and returns that full sync's result,
and a second consecutive 410 surfaces as an error; the Microsoft variant
surfaces any rejected delta token as an error immediately, issuing no further
request. -/
theorem c2_amended :
    (∀ (st : Option String) (m : String) (script : List GoogleResp)
       (cs : List Contact) (nst : Option String),
      optTruthy st = true →
      (googleGetContacts none script).1 = GResult.ok cs nst →
      (googleGetContacts st (GoogleResp.httpError 410 m :: script)).1 =
        GResult.ok cs nst) ∧
    (∀ (st : Option String) (m1 m2 : String) (rest : List GoogleResp),
      optTruthy st = true →
      (googleGetContacts st (GoogleResp.httpError 410 m1 ::
          GoogleResp.httpError 410 m2 :: rest)).1 =
        GResult.err ⟨"Failed to fetch contacts: " ++
          ("Failed to fetch contacts: " ++ m2), "google_workspace",
          some "get_contacts"⟩) ∧
    (∀ (st : Option String) (code : Nat) (m : String) (script : List MsResp),
      optTruthy st = true →
      msGetContacts st (MsResp.fail (MsFailure.httpStatus code m) :: script) =
        (MsResult.err ⟨"Failed to fetch contacts: HTTP " ++ toString code,
          "microsoft_365", some "get_contacts"⟩,
         [msDeltaUrl (st.getD "")])) := by
  refine ⟨?_, ?_, ?_⟩
  · intro st m script cs nst hst hok
    simp only [googleGetContacts] at hok ⊢
    simp only [gAux, hst, Bool.and_true, beq_self_eq_true, if_true]
    rw [gAux_fst_trace_irrel none none [] script _ []]
    rw [hok]
    rfl
  · intro st m1 m2 rest hst
    simp only [googleGetContacts]
    simp only [gAux, hst, beq_self_eq_true, Bool.true_and, Bool.and_true,
      if_true, optTruthy_none, Bool.and_false, Bool.false_eq_true, if_false,
      gWrapErr]
  · intro st code m script hst
    simp only [msGetContacts, hst, if_true]
    rfl

/-- C2 witness. -/
theorem c2_witness :
    ((googleGetContacts (some "T")
        [GoogleResp.httpError 410 "gone",
         GoogleResp.page [] none (some "S")]).1 = GResult.ok [] (some "S")) ∧
    ((googleGetContacts (some "T")
        [GoogleResp.httpError 410 "a", GoogleResp.httpError 410 "b"]).1 =
      GResult.err ⟨"Failed to fetch contacts: " ++
        ("Failed to fetch contacts: " ++ "b"), "google_workspace",
        some "get_contacts"⟩) ∧
    (msGetContacts (some "T") [MsResp.fail (MsFailure.httpStatus 410 "g")] =
      (MsResult.err ⟨"Failed to fetch contacts: HTTP 410", "microsoft_365",
        some "get_contacts"⟩,
       [msDeltaUrl "T"])) :=
  ⟨c2_amended.1 (some "T") "gone" [GoogleResp.page [] none (some "S")] []
      (some "S") (by decide) (by decide),
   c2_amended.2.1 (some "T") "a" "b" [] (by decide),
   c2_amended.2.2 (some "T") 410 "g" [] (by decide)⟩

/-- The Google loop issues at most one request per scripted response, plus
one: the pagination loop terminates on any finite response sequence. -/
theorem gAux_trace_len (st pt : Option String) (acc : List Contact)
    (script : List GoogleResp) (tr : List GoogleParams) :
    (gAux st pt acc script tr).2.length ≤ tr.length + script.length + 1 := by
  induction script generalizing st pt acc tr with
  | nil => simp [gAux]
  | cons resp rest ih =>
    cases resp with
    | httpError status msg =>
      by_cases h : (status == 410 && optTruthy st) = true
      · simp only [gAux, h, if_true, List.length_cons]
        calc (gAux none none [] rest (tr ++ [gMkParams st pt])).2.length
            ≤ (tr ++ [gMkParams st pt]).length + rest.length + 1 := ih _ _ _ _
          _ ≤ tr.length + (rest.length + 1) + 1 := by simp; omega
      · simp [gAux, h]
    | page cs npt nst =>
      by_cases h : optTruthy npt = true
      · simp only [gAux, h, if_true, List.length_cons]
        calc (gAux st npt (acc ++ cs.filterMap parseGoogleContact) rest
              (tr ++ [gMkParams st pt])).2.length
            ≤ (tr ++ [gMkParams st pt]).length + rest.length + 1 := ih _ _ _ _
          _ ≤ tr.length + (rest.length + 1) + 1 := by simp; omega
      · simp [gAux, h]

/-- The Microsoft loop issues at most one request per scripted response, plus
one. -/
theorem msAux_trace_len (url : String) (acc : List Contact)
    (script : List MsResp) (tr : List String) :
    (msAux url acc script tr).2.length ≤ tr.length + script.length + 1 := by
  induction script generalizing url acc tr with
  | nil => simp [msAux]
  | cons resp rest ih =>
    cases resp with
    | fail f =>
      cases f <;> simp [msAux]
    | page v nl dl =>
      cases nl with
      | none =>
        simp [msAux]
      | some nlv =>
        by_cases h : (nlv != "") = true
        · simp only [msAux, h, if_true, List.length_cons]
          calc (msAux nlv (acc ++ v.filterMap parseMicrosoftContact) rest
                (tr ++ [url])).2.length
              ≤ (tr ++ [url]).length + rest.length + 1 := ih _ _ _
            _ ≤ tr.length + (rest.length + 1) + 1 := by
              simp only [List.length_append, List.length_cons, List.length_nil]
              omega
        · simp [msAux, h]

/-- C3 counterexample: for the Google variant, an incremental sync (non-null
sync token) whose first page carries `nextPageToken = "P2"` issues a follow-up
request that repeats the original sync token and carries no page token at all
— the follow-up is not keyed by the prior page's token. -/
theorem c3_counterexample :
    ((googleGetContacts (some "T") [GoogleResp.page [] (some "P2") none]).2 =
      [{ syncToken := some "T" }, { syncToken := some "T" }]) ∧
    ({ syncToken := some "T" } : GoogleParams).pageToken = none := by
  exact ⟨by decide, rfl⟩

/-- C3 amended: pagination terminates on every finite response sequence, a
page response with a next-page indicator triggers a follow-up request and one
without stops the loop returning the resumable token; the follow-up request is
keyed by the prior page's token in the Microsoft variant and in the Google
full-sync case, but Google's incremental case instead repeats the original
sync token with no page token. -/
theorem c3_amended :
    (∀ (st pt : Option String) (acc : List Contact)
       (conns : List GoogleConnection) (npt nst : Option String)
       (rest : List GoogleResp) (tr : List GoogleParams),
      optTruthy st = false → optTruthy npt = true →
      (gAux st pt acc (GoogleResp.page conns npt nst :: rest)
          tr).2[tr.length + 1]? = some { pageToken := npt }) ∧
    (∀ (st pt : Option String) (acc : List Contact)
       (conns : List GoogleConnection) (npt nst : Option String)
       (rest : List GoogleResp) (tr : List GoogleParams),
      optTruthy st = true → optTruthy npt = true →
      (gAux st pt acc (GoogleResp.page conns npt nst :: rest)
          tr).2[tr.length + 1]? = some { syncToken := st }) ∧
    (∀ (st pt : Option String) (acc : List Contact)
       (conns : List GoogleConnection) (npt nst : Option String)
       (rest : List GoogleResp) (tr : List GoogleParams),
      optTruthy npt = false →
      (gAux st pt acc (GoogleResp.page conns npt nst :: rest) tr).1 =
        GResult.ok (acc ++ conns.filterMap parseGoogleContact) nst) ∧
    (∀ (url : String) (acc : List Contact) (v : List MsContact) (nl : String)
       (dl : Option String) (rest : List MsResp) (tr : List String),
      (nl != "") = true →
      (msAux url acc (MsResp.page v (some nl) dl :: rest)
          tr).2[tr.length + 1]? = some nl) ∧
    (∀ (st : Option String) (v : List MsContact) (dl : Option String),
      (msGetContacts st [MsResp.page v none dl]).1 =
        MsResult.ok (v.filterMap parseMicrosoftContact) (msExtractToken dl)) ∧
    (∀ (st pt : Option String) (acc : List Contact) (script : List GoogleResp)
       (tr : List GoogleParams),
      (gAux st pt acc script tr).2.length ≤ tr.length + script.length + 1) ∧
    (∀ (url : String) (acc : List Contact) (script : List MsResp)
       (tr : List String),
      (msAux url acc script tr).2.length ≤ tr.length + script.length + 1) := by
  refine ⟨?_, ?_, ?_, ?_, ?_, gAux_trace_len, msAux_trace_len⟩
  · intro st pt acc conns npt nst rest tr h1 h2
    have hstep : gAux st pt acc (GoogleResp.page conns npt nst :: rest) tr =
        gAux st npt (acc ++ conns.filterMap parseGoogleContact) rest
          (tr ++ [gMkParams st pt]) := by
      simp only [gAux, h2, if_true]
    rw [hstep]
    have hg := gAux_trace_get st npt (acc ++ conns.filterMap parseGoogleContact)
      rest (tr ++ [gMkParams st pt])
    simpa [gMkParams_page h1 h2] using hg
  · intro st pt acc conns npt nst rest tr h1 h2
    have hstep : gAux st pt acc (GoogleResp.page conns npt nst :: rest) tr =
        gAux st npt (acc ++ conns.filterMap parseGoogleContact) rest
          (tr ++ [gMkParams st pt]) := by
      simp only [gAux, h2, if_true]
    rw [hstep]
    have hg := gAux_trace_get st npt (acc ++ conns.filterMap parseGoogleContact)
      rest (tr ++ [gMkParams st pt])
    simpa [gMkParams_sync npt h1] using hg
  · intro st pt acc conns npt nst rest tr h
    simp [gAux, h]
  · intro url acc v nl dl rest tr h
    have hstep : msAux url acc (MsResp.page v (some nl) dl :: rest) tr =
        msAux nl (acc ++ v.filterMap parseMicrosoftContact) rest
          (tr ++ [url]) := by
      simp only [msAux, h, if_true]
    rw [hstep]
    have hg := msAux_trace_get nl (acc ++ v.filterMap parseMicrosoftContact)
      rest (tr ++ [url])
    simpa using hg
  · intro st v dl
    simp [msGetContacts, msAux]

/-- C3 witness. -/
theorem c3_witness :
    ((gAux none none [] [GoogleResp.page [] (some "P2") none]
        []).2[0 + 1]? = some { pageToken := some "P2" }) ∧
    ((gAux (some "T") none [] [GoogleResp.page [] (some "P2") none]
        []).2[0 + 1]? = some { syncToken := some "T" }) ∧
    ((gAux none none [] [GoogleResp.page [] none (some "S")] []).1 =
      GResult.ok ([] ++ List.filterMap parseGoogleContact []) (some "S")) ∧
    ((msAux "u0" [] [MsResp.page [] (some "u1") none] []).2[0 + 1]? =
      some "u1") :=
  by
  refine ⟨?_, ?_, ?_, ?_⟩
  · simpa using c3_amended.1 none none [] [] (some "P2") none [] []
      (by decide) (by decide)
  · simpa using c3_amended.2.1 (some "T") none [] [] (some "P2") none [] []
      (by decide) (by decide)
  · exact c3_amended.2.2.1 none none [] [] none (some "S") [] [] (by decide)
  · simpa using c3_amended.2.2.2.1 "u0" [] [] "u1" none [] [] (by decide)

/-- C7 counterexample: in a full sync spanning two pages, the second page
request carries only the page token — its `requestSyncToken` flag is `false`,
so not every page request of a multi-page full sync asks the provider for a
fresh continuation token. -/
theorem c7_counterexample :
    ((googleGetContacts none [GoogleResp.page [] (some "P2") none]).2 =
      [{ requestSyncToken := true }, { pageToken := some "P2" }]) ∧
    ({ pageToken := some "P2" } : GoogleParams).requestSyncToken = false := by
  exact ⟨by decide, rfl⟩

/-- C7 amended: in a full sync only the *first* page request carries the
`requestSyncToken` flag; follow-up page requests carry only the prior page's
token; the returned cursor is nonetheless whatever `nextSyncToken` the final
page response carries. -/
theorem c7_amended :
    (∀ (script : List GoogleResp),
      (googleGetContacts none script).2[0]? =
        some { requestSyncToken := true }) ∧
    (∀ (st pt : Option String) (acc : List Contact)
       (conns : List GoogleConnection) (npt nst : Option String)
       (rest : List GoogleResp) (tr : List GoogleParams),
      optTruthy st = false → optTruthy npt = true →
      (gAux st pt acc (GoogleResp.page conns npt nst :: rest)
          tr).2[tr.length + 1]? =
        some { syncToken := none, pageToken := npt,
               requestSyncToken := false }) ∧
    (∀ (conns1 conns2 : List GoogleConnection) (npt nst : Option String),
      optTruthy npt = true →
      (googleGetContacts none [GoogleResp.page conns1 npt none,
          GoogleResp.page conns2 none nst]).1 =
        GResult.ok (conns1.filterMap parseGoogleContact ++
          conns2.filterMap parseGoogleContact) nst) := by
  refine ⟨?_, ?_, ?_⟩
  · intro script
    have hg := gAux_trace_get none none [] script []
    simpa [gMkParams_fresh optTruthy_none optTruthy_none] using hg
  · intro st pt acc conns npt nst rest tr h1 h2
    have hstep : gAux st pt acc (GoogleResp.page conns npt nst :: rest) tr =
        gAux st npt (acc ++ conns.filterMap parseGoogleContact) rest
          (tr ++ [gMkParams st pt]) := by
      simp only [gAux, h2, if_true]
    rw [hstep]
    have hg := gAux_trace_get st npt (acc ++ conns.filterMap parseGoogleContact)
      rest (tr ++ [gMkParams st pt])
    simpa [gMkParams_page h1 h2] using hg
  · intro conns1 conns2 npt nst h
    simp [googleGetContacts, gAux, h, optTruthy_none]

/-- C7 witness. -/
theorem c7_witness :
    ((gAux none none [] [GoogleResp.page [] (some "P2") none]
        []).2[0 + 1]? =
      some { syncToken := none, pageToken := some "P2",
             requestSyncToken := false }) ∧
    ((googleGetContacts none [GoogleResp.page [] (some "P2") none,
        GoogleResp.page [] none (some "S")]).1 =
      GResult.ok (List.filterMap parseGoogleContact [] ++
        List.filterMap parseGoogleContact []) (some "S")) := by
  refine ⟨?_, ?_⟩
  · simpa using c7_amended.2.1 none none [] [] (some "P2") none [] []
      (by decide) (by decide)
  · exact c7_amended.2.2 [] [] (some "P2") (some "S") (by decide)

/-- C4: at every point of any create/scan/renew sequence handled by the
(spec-modelled) Subscription Lifecycle Manager, at most one `Active` record
exists per `(provider, resource_kind, account_id)` triple, and a renewal
supersedes in place — it never adds a record. -/
theorem c4_at_most_one_active :
    (∀ (ops : List MgrOp) (p rk a : String),
      activeCount (runMgr ops) p rk a ≤ 1) ∧
    (∀ (s : List SubRecord) (oldId newId : String) (exp : Nat),
      (applyOp s (MgrOp.renew oldId newId exp)).length = s.length) := by
  constructor
  · intro ops p rk a
    exact le_trans (activeCount_le_liveCount _ p rk a)
      (foldl_live_le_one ops [] (fun _ _ _ => by simp [liveCount]) p rk a)
  · intro s oldId newId exp
    simp [applyOp]

/-- Mapping through `attach` does not change which elements a `List.any` sees. -/
theorem attach_any {α : Type} (l : List α) (g : α → Bool) :
    (l.attach.any fun p => g p.1) = l.any g := by
  rw [Bool.eq_iff_iff]
  simp [List.any_eq_true, Subtype.exists]

/-- Unfolding lemma for the spec-side deep attachment search on a part whose
`parts` key is present. -/
theorem specDeepHasAttachment_some (hs : List GmailHeader) (mt : String)
    (f bd : Option String) (l : List GmailPayload) :
    specDeepHasAttachment (.mk hs mt f bd (some l)) =
      (filenameTruthy f || l.any (fun p => specDeepHasAttachment p)) := by
  rw [specDeepHasAttachment]
  congr 1
  exact attach_any l _

/-- Unfolding lemma for the spec-side deep attachment search on a part with
no `parts` key. -/
theorem specDeepHasAttachment_none (hs : List GmailHeader) (mt : String)
    (f bd : Option String) :
    specDeepHasAttachment (.mk hs mt f bd none) = filenameTruthy f := by
  rw [specDeepHasAttachment]
  simp

/-- C5 counterexample: a payload whose only filename-bearing part is *nested*
(a sub-part of a sub-part) does carry an attachment by the claim's deep
reading, yet the code reports `has_attachments = false`, because it inspects
only the immediate parts. -/
theorem c5_counterexample :
    specDeepHasAttachment
        (.mk [] "multipart/mixed" none none
          (some [.mk [] "multipart/alternative" (some "") none
            (some [.mk [] "application/pdf" (some "report.pdf") none
              none])])) = true ∧
    (parseGmailMessage
        ⟨"m1", none,
         .mk [] "multipart/mixed" none none
          (some [.mk [] "multipart/alternative" (some "") none
            (some [.mk [] "application/pdf" (some "report.pdf") none
              none])]),
         []⟩).hasAttachments = false := by
  constructor
  · rw [specDeepHasAttachment_some]
    simp only [List.any_cons, List.any_nil]
    rw [specDeepHasAttachment_some]
    simp only [List.any_cons, List.any_nil]
    rw [specDeepHasAttachment_none]
    decide
  · rfl

/-- C5 amended: for the Google variant (whose payload carries no top-level
attachment flag), `has_attachments` is true iff some *immediate* part of the
payload has a filename that is non-empty after stripping; nested sub-parts
are not inspected.  (The Microsoft variant copies the provider's top-level
`hasAttachments` flag, so it is outside the claim's scope.) -/
theorem c5_amended :
    ∀ (m : GmailMessage),
      googleGetEmailContent (Except.ok m) = Except.ok (parseGmailMessage m) ∧
      ((parseGmailMessage m).hasAttachments = true ↔
        ∃ p ∈ m.payload.parts.getD [], filenameTruthy p.filename = true) := by
  intro m
  refine ⟨rfl, ?_⟩
  show gmailHasAttachments m.payload = true ↔ _
  cases hp : m.payload.parts with
  | none => simp [gmailHasAttachments, hp]
  | some l => simp [gmailHasAttachments, hp, List.any_eq_true]

/-- C6: neither adapter ever returns a contact with an empty identifier list;
entities without identifiers are filtered during parsing, not surfaced as
errors. -/
theorem c6_no_empty_identifier_contacts :
    (∀ (st : Option String) (script : List GoogleResp) (cs : List Contact)
       (nst : Option String) (c : Contact),
      (googleGetContacts st script).1 = GResult.ok cs nst → c ∈ cs →
      c.identifiers ≠ []) ∧
    (∀ (st : Option String) (script : List MsResp) (cs : List Contact)
       (nst : Option String) (c : Contact),
      (msGetContacts st script).1 = MsResult.ok cs nst → c ∈ cs →
      c.identifiers ≠ []) := by
  constructor
  · intro st script cs nst c h hc
    exact gAux_ok_ids st none [] script [] (by simp) cs nst h c hc
  · intro st script cs nst c h hc
    simp only [msGetContacts] at h
    rcases hm : msAux (if optTruthy st = true then msDeltaUrl (st.getD "")
        else msFullUrl) [] script [] with ⟨r, tr⟩
    rw [hm] at h
    cases r with
    | done cs2 dl =>
      simp only at h
      cases h
      exact msAux_done_ids _ [] script [] (by simp) cs dl
        (by rw [hm]) c hc
    | err e => simp at h
    | outOfScript => simp at h

/-- C6 witness. -/
theorem c6_witness :
    ({ id := some "people/c1", name := none,
       identifiers := [{ type := "email", value := some "a@x.org" }] } :
        Contact).identifiers ≠ [] ∧
    ({ id := some "m1", name := none,
       identifiers := [{ type := "phone", value := some "555" }] } :
        Contact).identifiers ≠ [] := by
  constructor
  · exact c6_no_empty_identifier_contacts.1 none
      [GoogleResp.page [⟨some "people/c1", [], [⟨some "a@x.org"⟩], []⟩]
        none none]
      [⟨some "people/c1", none, [⟨"email", some "a@x.org"⟩]⟩] none _
      (by decide) (by decide)
  · exact c6_no_empty_identifier_contacts.2 none
      [MsResp.page [⟨some "m1", none, [], none, none, some "555"⟩] none none]
      [⟨some "m1", none, [⟨"phone", some "555"⟩]⟩] none _
      (by decide) (by decide)

/-- C8 counterexample: a NotFound-class upstream failure (HTTP 404) of a
Microsoft contacts fetch is raised as an `IntegrationException` whose
attribute set carries exactly the `provider` and `operation` tags — there is
no `kind` tag, and no shared error taxonomy exists in the code. -/
theorem c8_counterexample :
    ((msGetContacts (some "T")
        [MsResp.fail (MsFailure.httpStatus 404 "nf")]).1 =
      MsResult.err ⟨"Failed to fetch contacts: HTTP 404", "microsoft_365",
        some "get_contacts"⟩) ∧
    ((IntegrationException.tags ⟨"Failed to fetch contacts: HTTP 404",
        "microsoft_365", some "get_contacts"⟩).map Prod.fst =
      ["provider", "operation"]) ∧
    (((IntegrationException.tags ⟨"Failed to fetch contacts: HTTP 404",
        "microsoft_365", some "get_contacts"⟩).map Prod.fst).contains
      "kind" = false) := by
  refine ⟨by decide, by decide, by decide⟩

/-- C8 amended: every error any embedded adapter operation raises is an
`IntegrationException` tagged with the adapter's `provider` string and the
raising operation's name (errors of Google's `renew_subscription` are tagged
`subscribe_to_realtime_events`, the operation it delegates to); no `kind` tag
from a shared taxonomy is attached. -/
theorem c8_amended :
    (∀ (st : Option String) (script : List GoogleResp)
       (e : IntegrationException),
      (googleGetContacts st script).1 = GResult.err e →
      e.provider = "google_workspace" ∧ e.operation = some "get_contacts") ∧
    (∀ (st : Option String) (script : List MsResp) (e : IntegrationException),
      (msGetContacts st script).1 = MsResult.err e →
      e.provider = "microsoft_365" ∧ e.operation = some "get_contacts") ∧
    (∀ (fetch : Except String GmailMessage) (e : IntegrationException),
      googleGetEmailContent fetch = Except.error e →
      e.provider = "google_workspace" ∧
        e.operation = some "get_email_content") ∧
    (∀ (fetch : Except MsFailure MsMessage) (e : IntegrationException),
      msGetEmailContent fetch = Except.error e →
      e.provider = "microsoft_365" ∧
        e.operation = some "get_email_content") ∧
    (∀ (fetch : Except String GEvent) (e : IntegrationException),
      googleGetCalendarEvent fetch = Except.error e →
      e.provider = "google_workspace" ∧
        e.operation = some "get_calendar_event") ∧
    (∀ (fetch : Except MsFailure MsEvent) (e : IntegrationException),
      msGetCalendarEvent fetch = Except.error e →
      e.provider = "microsoft_365" ∧
        e.operation = some "get_calendar_event") ∧
    (∀ (u ch : String) (gr : Except String GmailWatchResp)
       (cr : Except String CalWatchResp) (e : IntegrationException),
      (googleSubscribe u ch gr cr).1 = Except.error e →
      e.provider = "google_workspace" ∧
        e.operation = some "subscribe_to_realtime_events") ∧
    (∀ (url : String) (gen : Nat → String) (n : Nat) (exp : String)
       (er cr : Except MsFailure MsSubResp) (e : IntegrationException),
      (msSubscribe url gen n exp er cr).1 = Except.error e →
      e.provider = "microsoft_365" ∧
        e.operation = some "subscribe_to_realtime_events") ∧
    (∀ (subId d ch : String) (gr : Except String GmailWatchResp)
       (cr : Except String CalWatchResp) (e : IntegrationException),
      (googleRenewSubscription subId d ch gr cr).1 = Except.error e →
      e.provider = "google_workspace" ∧
        e.operation = some "subscribe_to_realtime_events") ∧
    (∀ (subId expd : String) (resp : Except MsFailure String)
       (e : IntegrationException),
      (msRenewSubscription subId expd resp).1 = Except.error e →
      e.provider = "microsoft_365" ∧
        e.operation = some "renew_subscription") := by
  have hgsub : ∀ (u ch : String) (gr : Except String GmailWatchResp)
      (cr : Except String CalWatchResp) (e : IntegrationException),
      (googleSubscribe u ch gr cr).1 = Except.error e →
      e.provider = "google_workspace" ∧
        e.operation = some "subscribe_to_realtime_events" := by
    intro u ch gr cr e h
    cases gr with
    | error s =>
      simp only [googleSubscribe] at h
      cases h
      exact ⟨rfl, rfl⟩
    | ok gw =>
      cases cr with
      | error s =>
        simp only [googleSubscribe] at h
        cases h
        exact ⟨rfl, rfl⟩
      | ok cw => simp [googleSubscribe] at h
  refine ⟨?_, ?_, ?_, ?_, ?_, ?_, hgsub, ?_, ?_, ?_⟩
  · intro st script e h
    exact gAux_err_tags st none [] script [] e h
  · intro st script e h
    simp only [msGetContacts] at h
    rcases hm : msAux (if optTruthy st = true then msDeltaUrl (st.getD "")
        else msFullUrl) [] script [] with ⟨r, tr⟩
    rw [hm] at h
    cases r with
    | done cs2 dl => simp at h
    | err e2 =>
      simp only at h
      cases h
      exact msAux_err_tags _ [] script [] _ (by rw [hm])
    | outOfScript => simp at h
  · intro fetch e h
    cases fetch with
    | ok m => simp [googleGetEmailContent] at h
    | error s =>
      simp only [googleGetEmailContent] at h
      cases h
      exact ⟨rfl, rfl⟩
  · intro fetch e h
    cases fetch with
    | ok m => simp [msGetEmailContent] at h
    | error f =>
      cases f with
      | httpStatus code msg =>
        simp only [msGetEmailContent] at h
        cases h
        exact ⟨rfl, rfl⟩
      | otherExc msg =>
        simp only [msGetEmailContent] at h
        cases h
        exact ⟨rfl, rfl⟩
  · intro fetch e h
    cases fetch with
    | ok ev => simp [googleGetCalendarEvent] at h
    | error s =>
      simp only [googleGetCalendarEvent] at h
      cases h
      exact ⟨rfl, rfl⟩
  · intro fetch e h
    cases fetch with
    | ok ev => simp [msGetCalendarEvent] at h
    | error f =>
      cases f with
      | httpStatus code msg =>
        simp only [msGetCalendarEvent] at h
        cases h
        exact ⟨rfl, rfl⟩
      | otherExc msg =>
        simp only [msGetCalendarEvent] at h
        cases h
        exact ⟨rfl, rfl⟩
  · intro url gen n exp er cr e h
    cases er with
    | error f =>
      simp only [msSubscribe, msCreateSubscription] at h
      cases h
      exact ⟨rfl, rfl⟩
    | ok s1 =>
      cases cr with
      | error f =>
        simp only [msSubscribe, msCreateSubscription] at h
        cases h
        exact ⟨rfl, rfl⟩
      | ok s2 => simp [msSubscribe, msCreateSubscription] at h
  · intro subId d ch gr cr e h
    exact hgsub subId ch gr cr e h
  · intro subId expd resp e h
    cases resp with
    | ok j => simp [msRenewSubscription] at h
    | error f =>
      simp only [msRenewSubscription] at h
      cases h
      exact ⟨rfl, rfl⟩

/-- C8 witness. -/
theorem c8_witness :
    (({ message := "Failed to fetch contacts: boom",
        provider := "google_workspace", operation := some "get_contacts" } :
        IntegrationException).provider = "google_workspace") ∧
    (({ message := "Failed to fetch contacts: HTTP 500",
        provider := "microsoft_365", operation := some "get_contacts" } :
        IntegrationException).operation = some "get_contacts") ∧
    (({ message := "Failed to fetch email: boom",
        provider := "google_workspace",
        operation := some "get_email_content" } :
        IntegrationException).provider = "google_workspace") ∧
    (({ message := "Failed to fetch email: HTTP 404",
        provider := "microsoft_365", operation := some "get_email_content" } :
        IntegrationException).operation = some "get_email_content") ∧
    (({ message := "Failed to fetch event: boom",
        provider := "google_workspace",
        operation := some "get_calendar_event" } :
        IntegrationException).provider = "google_workspace") ∧
    (({ message := "Failed to fetch event: HTTP 429",
        provider := "microsoft_365",
        operation := some "get_calendar_event" } :
        IntegrationException).operation = some "get_calendar_event") ∧
    (({ message := "Failed to subscribe: boom",
        provider := "google_workspace",
        operation := some "subscribe_to_realtime_events" } :
        IntegrationException).provider = "google_workspace") ∧
    (({ message := "Failed to subscribe: denied",
        provider := "microsoft_365",
        operation := some "subscribe_to_realtime_events" } :
        IntegrationException).operation =
      some "subscribe_to_realtime_events") ∧
    (({ message := "Failed to subscribe: boom",
        provider := "google_workspace",
        operation := some "subscribe_to_realtime_events" } :
        IntegrationException).operation =
      some "subscribe_to_realtime_events") ∧
    (({ message := "Failed to renew subscription: gone",
        provider := "microsoft_365", operation := some "renew_subscription" } :
        IntegrationException).provider = "microsoft_365") := by
  refine ⟨?_, ?_, ?_, ?_, ?_, ?_, ?_, ?_, ?_, ?_⟩
  · exact (c8_amended.1 none [GoogleResp.httpError 500 "boom"] _
      (by decide)).1
  · exact (c8_amended.2.1 none [MsResp.fail (MsFailure.httpStatus 500 "x")] _
      (by decide)).2
  · exact (c8_amended.2.2.1 (Except.error "boom") _ rfl).1
  · exact (c8_amended.2.2.2.1
      (Except.error (MsFailure.httpStatus 404 "x")) _ rfl).2
  · exact (c8_amended.2.2.2.2.1 (Except.error "boom") _ rfl).1
  · exact (c8_amended.2.2.2.2.2.1
      (Except.error (MsFailure.httpStatus 429 "x")) _ rfl).2
  · exact (c8_amended.2.2.2.2.2.2.1 "u" "ch" (Except.error "boom")
      (Except.error "boom2") _ rfl).1
  · exact (c8_amended.2.2.2.2.2.2.2.1 "https://cb" (fun _ => "cs") 0 "exp"
      (Except.error (MsFailure.otherExc "denied"))
      (Except.error (MsFailure.otherExc "denied")) _ rfl).2
  · exact (c8_amended.2.2.2.2.2.2.2.2.1 "sub-1" "d" "ch"
      (Except.error "boom") (Except.error "boom2") _ rfl).2
  · exact (c8_amended.2.2.2.2.2.2.2.2.2 "sub-1" "d"
      (Except.error (MsFailure.otherExc "gone")) _ rfl).1

/-- C9: a Microsoft `subscribe_to_realtime_events` call draws exactly one
client-state value (the generator counter advances by exactly one, on success
and on failure alike), and on success both returned subscription records —
email and calendar — carry that same value as their `clientState`. -/
theorem c9_single_client_state :
    (∀ (url : String) (gen : Nat → String) (n : Nat) (exp : String)
       (er cr : Except MsFailure MsSubResp),
      (msSubscribe url gen n exp er cr).2 = n + 1) ∧
    (∀ (url : String) (gen : Nat → String) (n : Nat) (exp : String)
       (er cr : Except MsFailure MsSubResp) (es cs : MsSubOut) (n2 : Nat),
      msSubscribe url gen n exp er cr = (Except.ok (es, cs), n2) →
      es.clientState = gen n ∧ cs.clientState = gen n ∧ n2 = n + 1) := by
  constructor
  · intro url gen n exp er cr
    cases er with
    | error f => rfl
    | ok s1 =>
      cases cr with
      | error f => rfl
      | ok s2 => rfl
  · intro url gen n exp er cr es cs n2 h
    cases er with
    | error f => simp [msSubscribe, msCreateSubscription] at h
    | ok s1 =>
      cases cr with
      | error f => simp [msSubscribe, msCreateSubscription] at h
      | ok s2 =>
        simp only [msSubscribe, msCreateSubscription] at h
        cases h
        exact ⟨rfl, rfl, rfl⟩

/-- C9 witness. -/
theorem c9_witness :
    ((msSubscribe "https://cb" (fun k => "cs" ++ toString k) 0 "2026-01-01"
        (Except.ok ⟨"se", "/me/messages", "2026-01-01"⟩)
        (Except.ok ⟨"sc", "/me/events", "2026-01-01"⟩)).2 = 0 + 1) ∧
    (({ id := "se", resource := "/me/messages",
        expirationDateTime := "2026-01-01", clientState := "cs0" } :
        MsSubOut).clientState = (fun k => "cs" ++ toString k) 0 ∧
     ({ id := "sc", resource := "/me/events",
        expirationDateTime := "2026-01-01", clientState := "cs0" } :
        MsSubOut).clientState = (fun k => "cs" ++ toString k) 0 ∧
     (1 : Nat) = 0 + 1) := by
  constructor
  · exact c9_single_client_state.1 "https://cb" (fun k => "cs" ++ toString k)
      0 "2026-01-01" (Except.ok ⟨"se", "/me/messages", "2026-01-01"⟩)
      (Except.ok ⟨"sc", "/me/events", "2026-01-01"⟩)
  · exact c9_single_client_state.2 "https://cb" (fun k => "cs" ++ toString k)
      0 "2026-01-01" (Except.ok ⟨"se", "/me/messages", "2026-01-01"⟩)
      (Except.ok ⟨"sc", "/me/events", "2026-01-01"⟩) _ _ 1 rfl

/-- C10: when the Microsoft contacts loop finishes with a delta link whose
query carries no `$deltatoken` parameter — or with no delta link at all — the
call still succeeds and returns `None` as the next sync token; and a
subsequent call with a `None` token issues the full-sync URL, so the next
incremental sync silently becomes a full sync. -/
theorem c10_missing_delta_token :
    (msExtractToken none = none) ∧
    (∀ (st : Option String) (script : List MsResp) (cs : List Contact)
       (dl : Option String) (tr : List String),
      msAux (if optTruthy st = true then msDeltaUrl (st.getD "")
          else msFullUrl) [] script [] = (MsLoopResult.done cs dl, tr) →
      msExtractToken dl = none →
      (msGetContacts st script).1 = MsResult.ok cs none) ∧
    (∀ (script : List MsResp),
      (msGetContacts none script).2[0]? = some msFullUrl) := by
  refine ⟨rfl, ?_, ?_⟩
  · intro st script cs dl tr hm hx
    simp only [msGetContacts]
    rw [hm]
    simp only
    rw [hx]
  · intro script
    have hg := msAux_trace_get msFullUrl [] script []
    simp only [msGetContacts, optTruthy_none, Bool.false_eq_true, if_false]
    rcases hm : msAux msFullUrl [] script [] with ⟨r, tr⟩
    rw [hm] at hg
    cases r <;> simpa using hg

/-- C10 witness. -/
theorem c10_witness :
    (msGetContacts (some "T")
        [MsResp.page [] none
          (some "https://graph.microsoft.com/v1.0/me/contacts/delta?$skiptoken=abc")]).1 =
      MsResult.ok [] none := by
  exact c10_missing_delta_token.2.1 (some "T")
    [MsResp.page [] none
      (some "https://graph.microsoft.com/v1.0/me/contacts/delta?$skiptoken=abc")]
    [] (some "https://graph.microsoft.com/v1.0/me/contacts/delta?$skiptoken=abc")
    [msDeltaUrl "T"] (by decide) (by decide)

end ApexIngestion
